import Mathlib

/-!
Verification development for the authentication and authorization layer
(src/auth.rs, src/ratelimit.rs): JWT issuance and decoding, the layered
request-authorization chain, security-stamp exceptions, key initialization
and the keyed rate limiter, shallowly embedded in Lean.

Conventions of the embedding:
* machine integers (i64 timestamps, i32 role encodings) become `Int`;
* external effects (file system, database, `OnceLock` cells) become explicit
  state values threaded through the functions;
* the Ed25519 signature scheme is abstracted: a key pair is identified by a
  `Nat`, a signature verifies exactly when the verifying pair equals the
  signing pair (the standard symbolic model of an unforgeable signature);
* `CONFIG` values become explicit parameters.
-/

/-! ## Token purposes and issuer strings (auth.rs lines 28-41) -/

/-- The ten token purposes of auth.rs, one per `JWT_*_ISSUER` constant and
per `decode_*` wrapper. -/
inductive TokenPurpose : Type
  | login
  | invite
  | emergencyAccessInvite
  | delete
  | verifyEmail
  | admin
  | send
  | orgApiKey
  | fileDownload
  | registerVerify
deriving DecidableEq

/-- The purpose tag appended to the domain origin in each issuer constant
(auth.rs lines 28-41). -/
def TokenPurpose.tag : TokenPurpose → String
  | .login => "login"
  | .invite => "invite"
  | .emergencyAccessInvite => "emergencyaccessinvite"
  | .delete => "delete"
  | .verifyEmail => "verifyemail"
  | .admin => "admin"
  | .send => "send"
  | .orgApiKey => "api.organization"
  | .fileDownload => "file_download"
  | .registerVerify => "register_verify"

/-- Issuer string of a purpose: `format!("{}|tag", CONFIG.domain_origin())`. -/
def jwtIssuer (domainOrigin : String) (p : TokenPurpose) : String :=
  domainOrigin ++ "|" ++ p.tag

/-! ## The JWT model

A well-formed signed token is a payload plus the identity of the key pair
whose private key produced the signature.  `encode_jwt` (auth.rs lines
87-92) signs with the process private key; `decode_jwt` (auth.rs lines
94-111) verifies with the process public key and applies
`jsonwebtoken::Validation` with leeway 30, `validate_exp`, `validate_nbf`
and an exact issuer set. -/

/-- A structurally well-formed signed token carrying claims of type `α`. -/
structure Jwt (α : Type) where
  payload : α
  sigKeyPair : Nat
deriving DecidableEq

/-- `encode_jwt`: sign the serialized claims with the process private key. -/
def encode_jwt {α : Type} (privKeyPair : Nat) (claims : α) : Jwt α :=
  { payload := claims, sigKeyPair := privKeyPair }

/-- Projections extracting the registered claims (`nbf`, `exp`, `iss`) that
`jsonwebtoken`'s validation reads from a claim record. -/
structure ClaimsProj (α : Type) where
  nbf : α → Int
  exp : α → Int
  iss : α → String

/-- `decode_jwt` (auth.rs lines 94-111): verify the signature against the
process public key, then validate `exp` (leeway 30), `nbf` (leeway 30) and
exact issuer membership; each failure maps to the distinct error string of
the `match` on `ErrorKind`.  A signature failure is `ErrorKind::InvalidSignature`
which falls into the catch-all arm. -/
def decode_jwt {α : Type} (proj : ClaimsProj α) (pubKeyPair : Nat) (now : Int)
    (expectedIssuer : String) (tok : Jwt α) : Except String α :=
  if tok.sigKeyPair ≠ pubKeyPair then .error "Error decoding JWT"
  else if proj.exp tok.payload < now - 30 then .error "Token has expired"
  else if now + 30 < proj.nbf tok.payload then .error "Error decoding JWT"
  else if proj.iss tok.payload ≠ expectedIssuer then .error "Issuer is invalid"
  else .ok tok.payload

/-! ## Claim records (auth.rs lines 153-360), field for field. -/

/-- `LoginJwtClaims` (auth.rs lines 153-188). -/
structure LoginJwtClaims where
  nbf : Int
  exp : Int
  iss : String
  sub : String
  premium : Bool
  name : String
  email : String
  email_verified : Bool
  sstamp : String
  device : String
  scope : List String
  amr : List String
deriving DecidableEq

def LoginJwtClaims.proj : ClaimsProj LoginJwtClaims :=
  { nbf := LoginJwtClaims.nbf, exp := LoginJwtClaims.exp, iss := LoginJwtClaims.iss }

/-- `InviteJwtClaims` (auth.rs lines 190-205). -/
structure InviteJwtClaims where
  nbf : Int
  exp : Int
  iss : String
  sub : String
  email : String
  org_id : String
  member_id : String
  invited_by_email : Option String
deriving DecidableEq

def InviteJwtClaims.proj : ClaimsProj InviteJwtClaims :=
  { nbf := InviteJwtClaims.nbf, exp := InviteJwtClaims.exp, iss := InviteJwtClaims.iss }

/-- `EmergencyAccessInviteJwtClaims` (auth.rs lines 228-243). -/
structure EmergencyAccessInviteJwtClaims where
  nbf : Int
  exp : Int
  iss : String
  sub : String
  email : String
  emer_id : String
  grantor_name : String
  grantor_email : String
deriving DecidableEq

def EmergencyAccessInviteJwtClaims.proj : ClaimsProj EmergencyAccessInviteJwtClaims :=
  { nbf := EmergencyAccessInviteJwtClaims.nbf, exp := EmergencyAccessInviteJwtClaims.exp,
    iss := EmergencyAccessInviteJwtClaims.iss }

/-- `OrgApiKeyLoginJwtClaims` (auth.rs lines 266-280). -/
structure OrgApiKeyLoginJwtClaims where
  nbf : Int
  exp : Int
  iss : String
  sub : String
  client_id : String
  client_sub : String
  scope : List String
deriving DecidableEq

def OrgApiKeyLoginJwtClaims.proj : ClaimsProj OrgApiKeyLoginJwtClaims :=
  { nbf := OrgApiKeyLoginJwtClaims.nbf, exp := OrgApiKeyLoginJwtClaims.exp,
    iss := OrgApiKeyLoginJwtClaims.iss }

/-- `FileDownloadClaims` (auth.rs lines 298-310). -/
structure FileDownloadClaims where
  nbf : Int
  exp : Int
  iss : String
  sub : String
  file_id : String
deriving DecidableEq

def FileDownloadClaims.proj : ClaimsProj FileDownloadClaims :=
  { nbf := FileDownloadClaims.nbf, exp := FileDownloadClaims.exp, iss := FileDownloadClaims.iss }

/-- `RegisterVerifyClaims` (auth.rs lines 323-336). -/
structure RegisterVerifyClaims where
  nbf : Int
  exp : Int
  iss : String
  sub : String
  name : Option String
  verified : Bool
deriving DecidableEq

def RegisterVerifyClaims.proj : ClaimsProj RegisterVerifyClaims :=
  { nbf := RegisterVerifyClaims.nbf, exp := RegisterVerifyClaims.exp,
    iss := RegisterVerifyClaims.iss }

/-- `BasicJwtClaims` (auth.rs lines 350-360), shared by the delete,
verify-email, admin and send purposes. -/
structure BasicJwtClaims where
  nbf : Int
  exp : Int
  iss : String
  sub : String
deriving DecidableEq

def BasicJwtClaims.proj : ClaimsProj BasicJwtClaims :=
  { nbf := BasicJwtClaims.nbf, exp := BasicJwtClaims.exp, iss := BasicJwtClaims.iss }

/-! ## The per-purpose decode wrappers (auth.rs lines 113-151).

Each wrapper calls `decode_jwt` with its own issuer constant.  The domain
origin, verifying key and current time are explicit parameters of the
embedding. -/

def decode_login (d : String) (pub : Nat) (now : Int) (tok : Jwt LoginJwtClaims) :
    Except String LoginJwtClaims :=
  decode_jwt LoginJwtClaims.proj pub now (jwtIssuer d .login) tok

def decode_invite (d : String) (pub : Nat) (now : Int) (tok : Jwt InviteJwtClaims) :
    Except String InviteJwtClaims :=
  decode_jwt InviteJwtClaims.proj pub now (jwtIssuer d .invite) tok

def decode_emergency_access_invite (d : String) (pub : Nat) (now : Int)
    (tok : Jwt EmergencyAccessInviteJwtClaims) : Except String EmergencyAccessInviteJwtClaims :=
  decode_jwt EmergencyAccessInviteJwtClaims.proj pub now (jwtIssuer d .emergencyAccessInvite) tok

def decode_delete (d : String) (pub : Nat) (now : Int) (tok : Jwt BasicJwtClaims) :
    Except String BasicJwtClaims :=
  decode_jwt BasicJwtClaims.proj pub now (jwtIssuer d .delete) tok

def decode_verify_email (d : String) (pub : Nat) (now : Int) (tok : Jwt BasicJwtClaims) :
    Except String BasicJwtClaims :=
  decode_jwt BasicJwtClaims.proj pub now (jwtIssuer d .verifyEmail) tok

def decode_admin (d : String) (pub : Nat) (now : Int) (tok : Jwt BasicJwtClaims) :
    Except String BasicJwtClaims :=
  decode_jwt BasicJwtClaims.proj pub now (jwtIssuer d .admin) tok

def decode_send (d : String) (pub : Nat) (now : Int) (tok : Jwt BasicJwtClaims) :
    Except String BasicJwtClaims :=
  decode_jwt BasicJwtClaims.proj pub now (jwtIssuer d .send) tok

def decode_api_org (d : String) (pub : Nat) (now : Int) (tok : Jwt OrgApiKeyLoginJwtClaims) :
    Except String OrgApiKeyLoginJwtClaims :=
  decode_jwt OrgApiKeyLoginJwtClaims.proj pub now (jwtIssuer d .orgApiKey) tok

def decode_file_download (d : String) (pub : Nat) (now : Int) (tok : Jwt FileDownloadClaims) :
    Except String FileDownloadClaims :=
  decode_jwt FileDownloadClaims.proj pub now (jwtIssuer d .fileDownload) tok

def decode_register_verify (d : String) (pub : Nat) (now : Int) (tok : Jwt RegisterVerifyClaims) :
    Except String RegisterVerifyClaims :=
  decode_jwt RegisterVerifyClaims.proj pub now (jwtIssuer d .registerVerify) tok

/-! ## The issuance functions of auth.rs (lines 207-402).

`TimeDelta::try_hours(h)` adds `h * 3600` seconds and
`TimeDelta::try_minutes(m)` adds `m * 60` seconds to the current timestamp. -/

/-- `generate_invite_claims` (auth.rs lines 207-226); `expire_hours` is
`CONFIG.invitation_expiration_hours()` (a `u32` widened to `i64`). -/
def generate_invite_claims (d : String) (expire_hours : Int) (time_now : Int)
    (user_id email org_id member_id : String) (invited_by_email : Option String) :
    InviteJwtClaims :=
  { nbf := time_now
    exp := time_now + expire_hours * 3600
    iss := jwtIssuer d .invite
    sub := user_id
    email := email
    org_id := org_id
    member_id := member_id
    invited_by_email := invited_by_email }

/-- `generate_emergency_access_invite_claims` (auth.rs lines 245-264). -/
def generate_emergency_access_invite_claims (d : String) (expire_hours : Int) (time_now : Int)
    (user_id email emer_id grantor_name grantor_email : String) :
    EmergencyAccessInviteJwtClaims :=
  { nbf := time_now
    exp := time_now + expire_hours * 3600
    iss := jwtIssuer d .emergencyAccessInvite
    sub := user_id
    email := email
    emer_id := emer_id
    grantor_name := grantor_name
    grantor_email := grantor_email }

/-- `generate_organization_api_key_login_claims` (auth.rs lines 282-296):
fixed one-hour lifetime. -/
def generate_organization_api_key_login_claims (d : String) (time_now : Int)
    (org_api_key_uuid org_id : String) : OrgApiKeyLoginJwtClaims :=
  { nbf := time_now
    exp := time_now + 3600
    iss := jwtIssuer d .orgApiKey
    sub := org_api_key_uuid
    client_id := "organization." ++ org_id
    client_sub := org_id
    scope := ["api.organization"] }

/-- `generate_file_download_claims` (auth.rs lines 312-321): fixed
five-minute lifetime. -/
def generate_file_download_claims (d : String) (time_now : Int)
    (cipher_id file_id : String) : FileDownloadClaims :=
  { nbf := time_now
    exp := time_now + 300
    iss := jwtIssuer d .fileDownload
    sub := cipher_id
    file_id := file_id }

/-- `generate_register_verify_claims` (auth.rs lines 338-348): fixed
thirty-minute lifetime. -/
def generate_register_verify_claims (d : String) (time_now : Int)
    (email : String) (name : Option String) (verified : Bool) : RegisterVerifyClaims :=
  { nbf := time_now
    exp := time_now + 1800
    iss := jwtIssuer d .registerVerify
    sub := email
    name := name
    verified := verified }

/-- `generate_delete_claims` (auth.rs lines 362-371). -/
def generate_delete_claims (d : String) (expire_hours : Int) (time_now : Int)
    (uuid : String) : BasicJwtClaims :=
  { nbf := time_now
    exp := time_now + expire_hours * 3600
    iss := jwtIssuer d .delete
    sub := uuid }

/-- `generate_verify_email_claims` (auth.rs lines 373-382). -/
def generate_verify_email_claims (d : String) (expire_hours : Int) (time_now : Int)
    (user_id : String) : BasicJwtClaims :=
  { nbf := time_now
    exp := time_now + expire_hours * 3600
    iss := jwtIssuer d .verifyEmail
    sub := user_id }

/-- `generate_admin_claims` (auth.rs lines 384-392); `session_lifetime` is
`CONFIG.admin_session_lifetime()` minutes. -/
def generate_admin_claims (d : String) (session_lifetime : Int) (time_now : Int) :
    BasicJwtClaims :=
  { nbf := time_now
    exp := time_now + session_lifetime * 60
    iss := jwtIssuer d .admin
    sub := "admin_panel" }

/-- `generate_send_claims` (auth.rs lines 394-402): fixed two-minute
lifetime, subject `"{send_id}/{file_id}"`. -/
def generate_send_claims (d : String) (time_now : Int) (send_id file_id : String) :
    BasicJwtClaims :=
  { nbf := time_now
    exp := time_now + 120
    iss := jwtIssuer d .send
    sub := send_id ++ "/" ++ file_id }


/-! ## A model of Rust `str::rsplit` (used at auth.rs lines 504-510 and 970-973)

`a.rsplit("Bearer ").next()` yields the substring after the rightmost
occurrence of the pattern, or the whole string when the pattern does not
occur.  We model the segment list produced by the iterator, rightmost
segment first, over `List Char`. -/

/-- Decompose `s` around the rightmost occurrence of `sep`:
`lastSplit sep s = some (p, r)` means `s = p ++ sep ++ r` and no occurrence
of `sep` starts further right; `none` means `sep` does not occur in `s`
(for nonempty `sep`). -/
def lastSplit (sep : List Char) : List Char → Option (List Char × List Char)
  | [] => none
  | c :: cs =>
    match lastSplit sep cs with
    | some (p, r) => some (c :: p, r)
    | none => if sep.isPrefixOf (c :: cs) then some ([], (c :: cs).drop sep.length) else none

/-- Recursion engine for `rsplitList`; the fuel argument only bounds the
recursion depth and `s.length` steps always suffice, because every match of a
nonempty pattern strictly shortens the remaining prefix. -/
def rsplitListAux (sep : List Char) : Nat → List Char → List (List Char)
  | 0, s => [s]
  | fuel + 1, s =>
    match lastSplit sep s with
    | none => [s]
    | some (p, r) => r :: rsplitListAux sep fuel p

/-- The segments yielded by `s.rsplit(sep)`, rightmost segment first; its
head is the value of the iterator's first `next()` call. -/
def rsplitList (sep s : List Char) : List (List Char) :=
  rsplitListAux sep s.length s

/-- The pattern `"Bearer "` of auth.rs lines 505 and 971. -/
def bearerPat : List Char := "Bearer ".data

/-! ## Membership roles and statuses

The `MembershipType` and `MembershipStatus` enums live in `db/models`,
outside this crate slice. -/

/-- Modelled from the spec: the membership role enum (`db/models`, absent
from src/); the spec orders roles Owner > Admin > Manager > User. -/
inductive MembershipType : Type
  | Owner
  | Admin
  | Manager
  | User
deriving DecidableEq

/-- Modelled from the spec: the numeric value of a role, chosen so that the
numeric comparison order is Owner > Admin > Manager > User as the spec
states. -/
def MembershipType.toInt : MembershipType → Int
  | .Owner => 4
  | .Admin => 3
  | .Manager => 2
  | .User => 1

instance : LE MembershipType := ⟨fun a b => a.toInt ≤ b.toInt⟩

instance : LT MembershipType := ⟨fun a b => a.toInt < b.toInt⟩

instance (a b : MembershipType) : Decidable (a ≤ b) :=
  inferInstanceAs (Decidable (a.toInt ≤ b.toInt))

instance (a b : MembershipType) : Decidable (a < b) :=
  inferInstanceAs (Decidable (a.toInt < b.toInt))

/-- Modelled from the spec: decode a stored numeric role encoding; unknown
encodings are a data-integrity failure, never a default role. -/
def MembershipType.from_i32 (n : Int) : Option MembershipType :=
  if n = 4 then some .Owner
  else if n = 3 then some .Admin
  else if n = 2 then some .Manager
  else if n = 1 then some .User
  else none

/-- Modelled from the spec: membership status (`db/models`, absent from
src/); `from_i32` never returns a revoked status (auth.rs line 646
comment). -/
inductive MembershipStatus : Type
  | Invited
  | Accepted
  | Confirmed
deriving DecidableEq

/-- Modelled from the spec: decode a stored numeric status encoding. -/
def MembershipStatus.from_i32 (n : Int) : Option MembershipStatus :=
  if n = 0 then some .Invited
  else if n = 1 then some .Accepted
  else if n = 2 then some .Confirmed
  else none

/-! ## External entities consumed through lookup-by-id (db/models interface)

Only the fields auth.rs reads are modelled.  `User.stamp_exception` in the
source is a JSON string parsed with `serde_json::from_str::<UserStampException>`
whose parse failure is treated identically to absence (auth.rs line 535), so
the model stores the parsed form directly. -/

structure UserStampException where
  routes : List String
  security_stamp : String
  expire : Int
deriving DecidableEq

structure User where
  uuid : String
  security_stamp : String
  stamp_exception : Option UserStampException
deriving DecidableEq

/-- `User::reset_stamp_exception`: clear the stamp exception field. -/
def User.reset_stamp_exception (u : User) : User :=
  { u with stamp_exception := none }

structure Device where
  uuid : String
  user_uuid : String
deriving DecidableEq

structure MembershipRow where
  user_uuid : String
  org_uuid : String
  atype : Int
  status : Int
deriving DecidableEq

/-- External storage as consumed by the authorization chain: entity tables
plus the set of (member user, org, collection) access grants behind
`Collection::can_access_collection`. -/
structure Db where
  devices : List Device
  users : List User
  memberships : List MembershipRow
  collectionAccess : List (String × String × String)
deriving DecidableEq

def Device.find_by_uuid_and_user (uuid user_uuid : String) (db : Db) : Option Device :=
  db.devices.find? (fun dv => dv.uuid == uuid && dv.user_uuid == user_uuid)

def User.find_by_uuid (uuid : String) (db : Db) : Option User :=
  db.users.find? (fun u => u.uuid == uuid)

def MembershipRow.find_by_user_and_org (user_uuid org_uuid : String) (db : Db) :
    Option MembershipRow :=
  db.memberships.find? (fun m => m.user_uuid == user_uuid && m.org_uuid == org_uuid)

def can_access_collection (m : MembershipRow) (col_id : String) (db : Db) : Bool :=
  db.collectionAccess.contains (m.user_uuid, m.org_uuid, col_id)

/-! ## The request model

The per-request facts the extractors read: headers, route metadata, path and
query parameters, the transport peer.  `param::<OrganizationId>(1)` and the
query values are collapsed to the `Option String` they produce. -/

structure RequestModel where
  domainSet : Bool
  configDomain : String
  referer : Option String
  xForwardedProto : Option String
  rocketTls : Bool
  xForwardedHost : Option String
  hostHeader : Option String
  authHeader : Option String
  routeName : Option String
  orgIdPathParam : Option String
  orgIdQueryParam : Option String
  colIdPathParam : Option String
  colIdQueryParam : Option String
  ip : String
deriving DecidableEq

/-- `Host::from_request` (auth.rs lines 425-455): configured domain, else
`Referer`, else reconstructed from forwarded-protocol and forwarded-host
headers with a bare `Host` fallback. -/
def hostFrom (req : RequestModel) : String :=
  if req.domainSet then req.configDomain
  else
    match req.referer with
    | some referer => referer
    | none =>
      let protocol :=
        match req.xForwardedProto with
        | some proto => proto
        | none => if req.rocketTls then "https" else "http"
      let host :=
        match req.xForwardedHost with
        | some h => h
        | none => req.hostHeader.getD ""
      protocol ++ "://" ++ host

/-! ## The authorization chain (auth.rs lines 483-892)

Each tier is a function from the request (plus the database, the current
time, the login-token decoder and the uuid validity test, all explicit
parameters of the embedding) to a result and the list of user rows saved
back to storage along the way. -/

/-- Result of one tier derivation: the outcome plus the user rows persisted
back to storage as a side effect (the stamp-exception clearing save). -/
structure DOut (α : Type) where
  result : Except String α
  savedUsers : List User

/-- `Headers` (auth.rs lines 483-488). -/
structure HeadersCtx where
  host : String
  device : Device
  user : User
  ip : String
deriving DecidableEq

/-- `Headers::from_request` (auth.rs lines 490-570): extract the bearer
token, decode it as a login token, look up device and user, then enforce the
security-stamp check with its exception path.  `decodeLoginTok` stands for
`decode_login` on the raw token string and `now` for `Utc::now().timestamp()`. -/
def headersFromRequest (decodeLoginTok : String → Option LoginJwtClaims) (db : Db)
    (now : Int) (req : RequestModel) : DOut HeadersCtx :=
  let host := hostFrom req
  let ip := req.ip
  match req.authHeader with
  | none => ⟨.error "No access token provided", []⟩
  | some a =>
    match (rsplitList bearerPat a.data).head? with
    | none => ⟨.error "No access token provided", []⟩
    | some split =>
      let access_token := String.mk split
      match decodeLoginTok access_token with
      | none => ⟨.error "Invalid claim", []⟩
      | some claims =>
        match Device.find_by_uuid_and_user claims.device claims.sub db with
        | none => ⟨.error "Invalid device id", []⟩
        | some device =>
          match User.find_by_uuid claims.sub db with
          | none => ⟨.error "Device has no user associated", []⟩
          | some user =>
            if user.security_stamp ≠ claims.sstamp then
              match user.stamp_exception with
              | some stamp_exception =>
                match req.routeName with
                | none => ⟨.error "Error getting current route for stamp exception", []⟩
                | some current_route =>
                  if now > stamp_exception.expire then
                    ⟨.error "Stamp exception is expired", [user.reset_stamp_exception]⟩
                  else if ¬ stamp_exception.routes.contains current_route then
                    ⟨.error "Invalid security stamp: Current route and exception route do not match", []⟩
                  else if stamp_exception.security_stamp ≠ claims.sstamp then
                    ⟨.error "Invalid security stamp for matched stamp exception", []⟩
                  else ⟨.ok ⟨host, device, user, ip⟩, []⟩
              | none => ⟨.error "Invalid security stamp", []⟩
            else ⟨.ok ⟨host, device, user, ip⟩, []⟩

/-- `OrgHeaders` (auth.rs lines 572-580). -/
structure OrgHeadersCtx where
  host : String
  device : Device
  user : User
  membership_type : MembershipType
  membership_status : MembershipStatus
  membership : MembershipRow
  ip : String
deriving DecidableEq

/-- `OrgHeaders::is_member` (auth.rs lines 583-588). -/
def OrgHeadersCtx.is_member (h : OrgHeadersCtx) : Bool :=
  decide (h.membership_type ≥ MembershipType.User)

/-- `OrgHeaders::is_confirmed_and_admin` (auth.rs lines 589-591). -/
def OrgHeadersCtx.is_confirmed_and_admin (h : OrgHeadersCtx) : Bool :=
  decide (h.membership_status = MembershipStatus.Confirmed ∧
    h.membership_type ≥ MembershipType.Admin)

/-- `OrgHeaders::is_confirmed_and_manager` (auth.rs lines 592-594). -/
def OrgHeadersCtx.is_confirmed_and_manager (h : OrgHeadersCtx) : Bool :=
  decide (h.membership_status = MembershipStatus.Confirmed ∧
    h.membership_type ≥ MembershipType.Manager)

/-- `OrgHeaders::is_confirmed_and_owner` (auth.rs lines 595-597). -/
def OrgHeadersCtx.is_confirmed_and_owner (h : OrgHeadersCtx) : Bool :=
  decide (h.membership_status = MembershipStatus.Confirmed ∧
    h.membership_type = MembershipType.Owner)

/-- `OrgHeaders::from_request` (auth.rs lines 600-660): requires `Headers`,
resolves the organization id from the path or the query, validates it as a
uuid, looks up the membership and decodes its stored type and status. -/
def orgHeadersFromRequest (decodeLoginTok : String → Option LoginJwtClaims)
    (validUuid : String → Bool) (db : Db) (now : Int) (req : RequestModel) :
    DOut OrgHeadersCtx :=
  let h := headersFromRequest decodeLoginTok db now req
  match h.result with
  | .error e => ⟨.error e, h.savedUsers⟩
  | .ok headers =>
    let url_org_id : Option String :=
      match req.orgIdPathParam with
      | some org_id => some org_id
      | none => req.orgIdQueryParam
    match url_org_id with
    | some org_id =>
      if validUuid org_id then
        match MembershipRow.find_by_user_and_org headers.user.uuid org_id db with
        | none => ⟨.error "The current user is not member of the organization", h.savedUsers⟩
        | some membership =>
          match MembershipType.from_i32 membership.atype with
          | none => ⟨.error "Unknown user type in the database", h.savedUsers⟩
          | some member_type =>
            match MembershipStatus.from_i32 membership.status with
            | none => ⟨.error "User status is either revoked or invalid.", h.savedUsers⟩
            | some member_status =>
              ⟨.ok ⟨headers.host, headers.device, headers.user, member_type,
                    member_status, membership, headers.ip⟩, h.savedUsers⟩
      else ⟨.error "Error getting the organization id", h.savedUsers⟩
    | none => ⟨.error "Error getting the organization id", h.savedUsers⟩

/-- `AdminHeaders` (auth.rs lines 662-669). -/
structure AdminHeadersCtx where
  host : String
  device : Device
  user : User
  membership_type : MembershipType
  ip : String
  org_id : String
deriving DecidableEq

/-- `AdminHeaders::from_request` (auth.rs lines 671-690). -/
def adminHeadersFromRequest (decodeLoginTok : String → Option LoginJwtClaims)
    (validUuid : String → Bool) (db : Db) (now : Int) (req : RequestModel) :
    DOut AdminHeadersCtx :=
  let o := orgHeadersFromRequest decodeLoginTok validUuid db now req
  match o.result with
  | .error e => ⟨.error e, o.savedUsers⟩
  | .ok headers =>
    if headers.is_confirmed_and_admin then
      ⟨.ok ⟨headers.host, headers.device, headers.user, headers.membership_type,
            headers.ip, headers.membership.org_uuid⟩, o.savedUsers⟩
    else ⟨.error "You need to be Admin or Owner to call this endpoint", o.savedUsers⟩

/-- `get_col_id` (auth.rs lines 706-720): collection id from the fourth path
segment if it is a well-formed uuid, else from the `collectionId` query
value if that is one. -/
def get_col_id (validUuid : String → Bool) (req : RequestModel) : Option String :=
  let fromPath :=
    match req.colIdPathParam with
    | some col_id => if validUuid col_id then some col_id else none
    | none => none
  match fromPath with
  | some col_id => some col_id
  | none =>
    match req.colIdQueryParam with
    | some col_id => if validUuid col_id then some col_id else none
    | none => none

/-- `ManagerHeaders` (auth.rs lines 725-731). -/
structure ManagerHeadersCtx where
  host : String
  device : Device
  user : User
  ip : String
  org_id : String
deriving DecidableEq

/-- `ManagerHeaders::from_request` (auth.rs lines 733-765): at least Manager,
confirmed, with access to the collection named in the path or query. -/
def managerHeadersFromRequest (decodeLoginTok : String → Option LoginJwtClaims)
    (validUuid : String → Bool) (db : Db) (now : Int) (req : RequestModel) :
    DOut ManagerHeadersCtx :=
  let o := orgHeadersFromRequest decodeLoginTok validUuid db now req
  match o.result with
  | .error e => ⟨.error e, o.savedUsers⟩
  | .ok headers =>
    if headers.is_confirmed_and_manager then
      match get_col_id validUuid req with
      | some col_id =>
        if can_access_collection headers.membership col_id db then
          ⟨.ok ⟨headers.host, headers.device, headers.user, headers.ip,
                headers.membership.org_uuid⟩, o.savedUsers⟩
        else ⟨.error "The current user is not a manager for this collection", o.savedUsers⟩
      | none => ⟨.error "Error getting the collection id", o.savedUsers⟩
    else ⟨.error "You need to be a Manager, Admin or Owner to call this endpoint", o.savedUsers⟩

/-- `ManagerHeadersLoose` (auth.rs lines 780-786). -/
structure ManagerHeadersLooseCtx where
  host : String
  device : Device
  user : User
  membership : MembershipRow
  ip : String
deriving DecidableEq

/-- `ManagerHeadersLoose::from_request` (auth.rs lines 788-806): at least
Manager and confirmed, no collection check. -/
def managerHeadersLooseFromRequest (decodeLoginTok : String → Option LoginJwtClaims)
    (validUuid : String → Bool) (db : Db) (now : Int) (req : RequestModel) :
    DOut ManagerHeadersLooseCtx :=
  let o := orgHeadersFromRequest decodeLoginTok validUuid db now req
  match o.result with
  | .error e => ⟨.error e, o.savedUsers⟩
  | .ok headers =>
    if headers.is_confirmed_and_manager then
      ⟨.ok ⟨headers.host, headers.device, headers.user, headers.membership,
            headers.ip⟩, o.savedUsers⟩
    else ⟨.error "You need to be a Manager, Admin or Owner to call this endpoint", o.savedUsers⟩

/-- `OwnerHeaders` (auth.rs lines 844-849). -/
structure OwnerHeadersCtx where
  device : Device
  user : User
  ip : String
  org_id : String
deriving DecidableEq

/-- `OwnerHeaders::from_request` (auth.rs lines 851-868). -/
def ownerHeadersFromRequest (decodeLoginTok : String → Option LoginJwtClaims)
    (validUuid : String → Bool) (db : Db) (now : Int) (req : RequestModel) :
    DOut OwnerHeadersCtx :=
  let o := orgHeadersFromRequest decodeLoginTok validUuid db now req
  match o.result with
  | .error e => ⟨.error e, o.savedUsers⟩
  | .ok headers =>
    if headers.is_confirmed_and_owner then
      ⟨.ok ⟨headers.device, headers.user, headers.ip,
            headers.membership.org_uuid⟩, o.savedUsers⟩
    else ⟨.error "You need to be Owner to call this endpoint", o.savedUsers⟩

/-- `OrgMemberHeaders` (auth.rs lines 870-874). -/
structure OrgMemberHeadersCtx where
  host : String
  user : User
  org_id : String
deriving DecidableEq

/-- `OrgMemberHeaders::from_request` (auth.rs lines 876-892). -/
def orgMemberHeadersFromRequest (decodeLoginTok : String → Option LoginJwtClaims)
    (validUuid : String → Bool) (db : Db) (now : Int) (req : RequestModel) :
    DOut OrgMemberHeadersCtx :=
  let o := orgHeadersFromRequest decodeLoginTok validUuid db now req
  match o.result with
  | .error e => ⟨.error e, o.savedUsers⟩
  | .ok headers =>
    if headers.is_member then
      ⟨.ok ⟨headers.host, headers.user, headers.membership.org_uuid⟩, o.savedUsers⟩
    else ⟨.error "You need to be a Member of the Organization to call this endpoint", o.savedUsers⟩

/-! ## Rate limiter (src/ratelimit.rs)

The two wrappers delegate to the external `governor` keyed store; the bucket
dynamics are modelled from the spec: a bucket of burst size `burst` refilling
one token every `period` seconds, keyed by caller IP, consuming one token per
successful check.  The wrappers (ratelimit.rs lines 21-37) map a denied
check to an error carrying HTTP status 429. -/

structure RlBucket where
  tokens : Nat
  lastRefill : Int
deriving DecidableEq

/-- `Quota::with_period(seconds).allow_burst(burst)`. -/
structure RlQuota where
  period : Int
  burst : Nat
deriving DecidableEq

/-- The keyed bucket map of one limiter (`DashMapStateStore`). -/
structure RlState where
  buckets : List (String × RlBucket)
deriving DecidableEq

/-- Insert or replace the bucket stored for key `k`. -/
def rlUpdate (l : List (String × RlBucket)) (k : String) (v : RlBucket) :
    List (String × RlBucket) :=
  match l with
  | [] => [(k, v)]
  | (k2, v2) :: rest => if k2 = k then (k, v) :: rest else (k2, v2) :: rlUpdate rest k v

/-- Modelled from the spec: one `check_key` call on a keyed token bucket.
An unseen key starts with a full bucket; elapsed time refills one token per
`period` seconds up to `burst`; a successful check consumes one token; a
denied check changes no other key's bucket. -/
def rlCheck (q : RlQuota) (st : RlState) (ip : String) (now : Int) : Bool × RlState :=
  let b := (st.buckets.lookup ip).getD ⟨q.burst, now⟩
  let refills : Nat := if 0 < q.period then ((now - b.lastRefill) / q.period).toNat else 0
  let tokens := min q.burst (b.tokens + refills)
  let newLast := b.lastRefill + q.period * (refills : Int)
  (decide (0 < tokens),
    ⟨rlUpdate st.buckets ip
      (if 0 < tokens then ⟨tokens - 1, newLast⟩ else ⟨tokens, newLast⟩)⟩)

/-- The error value produced by `err_code!(msg, 429)`. -/
structure RlError where
  message : String
  code : Nat
deriving DecidableEq

/-- `check_limit_login` (ratelimit.rs lines 21-28). -/
def check_limit_login (q : RlQuota) (st : RlState) (ip : String) (now : Int) :
    Except RlError Unit × RlState :=
  match rlCheck q st ip now with
  | (true, st2) => (.ok (), st2)
  | (false, st2) => (.error ⟨"Too many login requests", 429⟩, st2)

/-- `check_limit_admin` (ratelimit.rs lines 30-37). -/
def check_limit_admin (q : RlQuota) (st : RlState) (ip : String) (now : Int) :
    Except RlError Unit × RlState :=
  match rlCheck q st ip now with
  | (true, st2) => (.ok (), st2)
  | (false, st2) => (.error ⟨"Too many admin requests", 429⟩, st2)

/-- The state after `n` consecutive checks for the same key at one instant. -/
def rlRun (q : RlQuota) (st : RlState) (ip : String) (now : Int) : Nat → RlState
  | 0 => st
  | n + 1 => (rlCheck q (rlRun q st ip now n) ip now).2

/-! ## Key manager (auth.rs lines 43-85)

The PEM parser, the generated key and its PKCS8 serialization are abstracted
behind an oracle; the two `OnceLock` cells and the key file are the explicit
state.  The public key always derives from the parsed private key in memory,
so one key-pair identifier stands for both halves. -/

structure KeyOracle where
  parsePem : String → Option Nat
  freshKey : Nat
  pemOfFresh : String

structure KmState where
  keyFile : Option String
  privKey : Option Nat
  pubKey : Option Nat
deriving DecidableEq

/-- `read_key` (auth.rs lines 47-71): open the key file (creating it when
`create_if_missing`), parse nonempty content as PEM, generate and persist a
fresh Ed25519 key when the file is absent or empty and creation is allowed,
fail otherwise.  Returns the outcome and the resulting file content. -/
def read_key (o : KeyOracle) (create_if_missing : Bool) (file : Option String) :
    Except String (Nat × String) × Option String :=
  match file with
  | none =>
    if create_if_missing then (.ok (o.freshKey, o.pemOfFresh), some o.pemOfFresh)
    else (.error "could not open private key file", none)
  | some content =>
    if content.length > 0 then
      match o.parsePem content with
      | some k => (.ok (k, content), some content)
      | none => (.error "invalid private key pem", some content)
    else if create_if_missing then (.ok (o.freshKey, o.pemOfFresh), some o.pemOfFresh)
    else (.error "Private key does not exist or is invalid", some content)

/-- `initialize_keys` (auth.rs lines 46-85): `read_key(true).or_else(|_|
read_key(false))`, derive the public key, then fill both `OnceLock`
singletons, failing loudly when either is already set. -/
def initialize_keys (o : KeyOracle) (st : KmState) : Except String Unit × KmState :=
  let r1 := read_key o true st.keyFile
  let r2 :=
    match r1.1 with
    | .ok v => (Except.ok v, r1.2)
    | .error _ => read_key o false r1.2
  match r2.1 with
  | .error e => (.error e, { st with keyFile := r2.2 })
  | .ok (k, _) =>
    if st.privKey.isSome then
      (.error "PRIVATE_ED25519_KEY must only be initialized once", { st with keyFile := r2.2 })
    else if st.pubKey.isSome then
      (.error "PUBLIC_ED25519_KEY must only be initialized once",
        { st with keyFile := r2.2, privKey := some k })
    else
      (.ok (), { keyFile := r2.2, privKey := some k, pubKey := some k })

/-! ## Helper lemmas on issuer strings -/

theorem string_append_left_cancel {s a b : String} (h : s ++ a = s ++ b) : a = b := by
  apply String.ext
  have h2 := congrArg String.data h
  rw [String.data_append, String.data_append] at h2
  exact List.append_cancel_left h2

theorem tag_injective {p1 p2 : TokenPurpose} (h : p1 ≠ p2) :
    TokenPurpose.tag p1 ≠ TokenPurpose.tag p2 := by
  cases p1 <;> cases p2 <;> first
    | exact absurd rfl h
    | decide

theorem jwtIssuer_injective (d : String) {p1 p2 : TokenPurpose} (h : p1 ≠ p2) :
    jwtIssuer d p1 ≠ jwtIssuer d p2 := by
  intro heq
  exact tag_injective h (string_append_left_cancel heq)

/-- Claim C1: a token issued for purpose P1 (its `iss` field is P1's issuer
string) never decodes under P2's expected issuer when P1 and P2 are distinct
purposes, even with a valid signature, because the per-purpose issuer strings
are pairwise distinct and `decode_jwt` requires an exact issuer match. -/
theorem C1_cross_purpose_decode (d : String) (p1 p2 : TokenPurpose) (hp : p1 ≠ p2) :
    jwtIssuer d p1 ≠ jwtIssuer d p2 ∧
    ∀ (α : Type) (proj : ClaimsProj α) (pub : Nat) (now : Int) (tok : Jwt α),
      proj.iss tok.payload = jwtIssuer d p1 →
      (decode_jwt proj pub now (jwtIssuer d p2) tok).isOk = false := by
  refine ⟨jwtIssuer_injective d hp, ?_⟩
  intro α proj pub now tok hiss
  unfold decode_jwt
  split_ifs with h1 h2 h3 h4
  · rfl
  · rfl
  · rfl
  · rfl
  · exact absurd (hiss ▸ not_not.mp h4) (jwtIssuer_injective d hp)

/-- Witness for C1: a delete-purpose token with a valid signature and a valid
time window fails to decode under the verify-email decoder. -/
theorem C1_cross_purpose_decode_witness :
    (decode_jwt BasicJwtClaims.proj 7 1000 (jwtIssuer "http://localhost" TokenPurpose.verifyEmail)
      { payload := { nbf := 990, exp := 2000,
                     iss := jwtIssuer "http://localhost" TokenPurpose.delete, sub := "u1" },
        sigKeyPair := 7 }).isOk = false :=
  (C1_cross_purpose_decode "http://localhost" TokenPurpose.delete TokenPurpose.verifyEmail
    (by decide)).2 BasicJwtClaims BasicJwtClaims.proj 7 1000 _ rfl

/-- Claim C2: `decode_jwt` succeeds if and only if the signature verifies
under the process public key, the current time lies in the window
`[nbf - 30, exp + 30]`, and the issuer matches exactly; on success the
returned claims are exactly the token payload; on any failure the caller
receives an error and never any partial claims. -/
theorem C2_decode_success_iff (α : Type) (proj : ClaimsProj α) (pub : Nat) (now : Int)
    (expected : String) (tok : Jwt α) :
    ((decode_jwt proj pub now expected tok = .ok tok.payload) ↔
      (tok.sigKeyPair = pub ∧ proj.nbf tok.payload - 30 ≤ now ∧
       now ≤ proj.exp tok.payload + 30 ∧ proj.iss tok.payload = expected)) ∧
    (∀ c, decode_jwt proj pub now expected tok = .ok c → c = tok.payload) ∧
    (¬(tok.sigKeyPair = pub ∧ proj.nbf tok.payload - 30 ≤ now ∧
       now ≤ proj.exp tok.payload + 30 ∧ proj.iss tok.payload = expected) →
      ∃ e, decode_jwt proj pub now expected tok = .error e) := by
  unfold decode_jwt
  split_ifs with h1 h2 h3 h4
  · exact ⟨⟨fun h => h.elim, fun hc => absurd hc.1 h1⟩,
      fun c h => h.elim, fun _ => ⟨_, rfl⟩⟩
  · refine ⟨⟨fun h => h.elim, fun hc => absurd hc.2.2.1 (by omega)⟩,
      fun c h => h.elim, fun _ => ⟨_, rfl⟩⟩
  · refine ⟨⟨fun h => h.elim, fun hc => absurd hc.2.1 (by omega)⟩,
      fun c h => h.elim, fun _ => ⟨_, rfl⟩⟩
  · exact ⟨⟨fun h => h.elim, fun hc => absurd hc.2.2.2 h4⟩,
      fun c h => h.elim, fun _ => ⟨_, rfl⟩⟩
  · refine ⟨⟨fun _ => ⟨not_not.mp h1, by omega, by omega, not_not.mp h4⟩, fun _ => rfl⟩,
      fun c h => (Except.ok.inj h).symm, ?_⟩
    intro hn
    exact absurd ⟨not_not.mp h1, by omega, by omega, not_not.mp h4⟩ hn

/-- Witness for C2: a concrete token with matching signature, valid window and
matching issuer decodes to exactly its payload. -/
theorem C2_decode_success_iff_witness :
    decode_jwt BasicJwtClaims.proj 7 1000 "http://localhost|send"
      { payload := { nbf := 990, exp := 1990, iss := "http://localhost|send", sub := "u" },
        sigKeyPair := 7 } =
      .ok { nbf := 990, exp := 1990, iss := "http://localhost|send", sub := "u" } :=
  ((C2_decode_success_iff BasicJwtClaims BasicJwtClaims.proj 7 1000 "http://localhost|send"
    _).1).mpr (by decide)

/-! ## Round-trip helpers -/

theorem decode_encode_ok {α : Type} (proj : ClaimsProj α) (pub : Nat) (now : Int)
    (expected : String) (c : α)
    (h1 : proj.nbf c - 30 ≤ now) (h2 : now ≤ proj.exp c + 30) (h3 : proj.iss c = expected) :
    decode_jwt proj pub now expected (encode_jwt pub c) = .ok c := by
  simp only [decode_jwt, encode_jwt]
  split_ifs with g1 g2 g3 g4
  · exact absurd rfl g1
  · exact absurd g2 (by omega)
  · exact absurd g3 (by omega)
  · exact absurd h3 g4
  · rfl

theorem decode_encode_wrongkey {α : Type} (proj : ClaimsProj α) (pub k : Nat) (hk : pub ≠ k)
    (now : Int) (expected : String) (c : α) :
    decode_jwt proj pub now expected (encode_jwt k c) = .error "Error decoding JWT" := by
  simp only [decode_jwt, encode_jwt]
  rw [if_pos (fun h => hk h.symm)]

theorem roundtrip_pair {α : Type} (proj : ClaimsProj α) (k k2 : Nat) (hk : k2 ≠ k) (now : Int)
    (expected : String) (c : α)
    (h1 : proj.nbf c - 30 ≤ now) (h2 : now ≤ proj.exp c + 30) (h3 : proj.iss c = expected) :
    decode_jwt proj k now expected (encode_jwt k c) = .ok c ∧
    (decode_jwt proj k2 now expected (encode_jwt k c)).isOk = false := by
  refine ⟨decode_encode_ok proj k now expected c h1 h2 h3, ?_⟩
  rw [decode_encode_wrongkey proj k2 k hk now expected c]
  rfl

/-- Claim C7: for every claim type issued by an issuance function of auth.rs,
decoding the token produced by `encode_jwt` under the matching public key
and at issuance time returns exactly the original claims, and the same
decode fails when verification uses the public key of any other key pair. -/
theorem C7_issue_decode_roundtrip (d : String) (k k2 : Nat) (hk : k2 ≠ k) (now : Int)
    (expire_hours session_lifetime : Int)
    (hhours : 0 ≤ expire_hours) (hsession : 0 ≤ session_lifetime)
    (user_id email org_id member_id emer_id grantor_name grantor_email
      org_api_key_uuid cipher_id file_id uuid send_id send_file_id : String)
    (invited_by_email oname : Option String) (verified : Bool) :
    (decode_invite d k now (encode_jwt k
        (generate_invite_claims d expire_hours now user_id email org_id member_id
          invited_by_email)) =
      .ok (generate_invite_claims d expire_hours now user_id email org_id member_id
          invited_by_email) ∧
     (decode_invite d k2 now (encode_jwt k
        (generate_invite_claims d expire_hours now user_id email org_id member_id
          invited_by_email))).isOk = false) ∧
    (decode_emergency_access_invite d k now (encode_jwt k
        (generate_emergency_access_invite_claims d expire_hours now user_id email emer_id
          grantor_name grantor_email)) =
      .ok (generate_emergency_access_invite_claims d expire_hours now user_id email emer_id
          grantor_name grantor_email) ∧
     (decode_emergency_access_invite d k2 now (encode_jwt k
        (generate_emergency_access_invite_claims d expire_hours now user_id email emer_id
          grantor_name grantor_email))).isOk = false) ∧
    (decode_api_org d k now (encode_jwt k
        (generate_organization_api_key_login_claims d now org_api_key_uuid org_id)) =
      .ok (generate_organization_api_key_login_claims d now org_api_key_uuid org_id) ∧
     (decode_api_org d k2 now (encode_jwt k
        (generate_organization_api_key_login_claims d now org_api_key_uuid org_id))).isOk =
      false) ∧
    (decode_file_download d k now (encode_jwt k
        (generate_file_download_claims d now cipher_id file_id)) =
      .ok (generate_file_download_claims d now cipher_id file_id) ∧
     (decode_file_download d k2 now (encode_jwt k
        (generate_file_download_claims d now cipher_id file_id))).isOk = false) ∧
    (decode_register_verify d k now (encode_jwt k
        (generate_register_verify_claims d now email oname verified)) =
      .ok (generate_register_verify_claims d now email oname verified) ∧
     (decode_register_verify d k2 now (encode_jwt k
        (generate_register_verify_claims d now email oname verified))).isOk = false) ∧
    (decode_delete d k now (encode_jwt k
        (generate_delete_claims d expire_hours now uuid)) =
      .ok (generate_delete_claims d expire_hours now uuid) ∧
     (decode_delete d k2 now (encode_jwt k
        (generate_delete_claims d expire_hours now uuid))).isOk = false) ∧
    (decode_verify_email d k now (encode_jwt k
        (generate_verify_email_claims d expire_hours now user_id)) =
      .ok (generate_verify_email_claims d expire_hours now user_id) ∧
     (decode_verify_email d k2 now (encode_jwt k
        (generate_verify_email_claims d expire_hours now user_id))).isOk = false) ∧
    (decode_admin d k now (encode_jwt k
        (generate_admin_claims d session_lifetime now)) =
      .ok (generate_admin_claims d session_lifetime now) ∧
     (decode_admin d k2 now (encode_jwt k
        (generate_admin_claims d session_lifetime now))).isOk = false) ∧
    (decode_send d k now (encode_jwt k
        (generate_send_claims d now send_id send_file_id)) =
      .ok (generate_send_claims d now send_id send_file_id) ∧
     (decode_send d k2 now (encode_jwt k
        (generate_send_claims d now send_id send_file_id))).isOk = false) := by
  refine ⟨?_, ?_, ?_, ?_, ?_, ?_, ?_, ?_, ?_⟩ <;>
    exact roundtrip_pair _ k k2 hk now _ _
      (by simp only [generate_invite_claims, generate_emergency_access_invite_claims,
            generate_organization_api_key_login_claims, generate_file_download_claims,
            generate_register_verify_claims, generate_delete_claims,
            generate_verify_email_claims, generate_admin_claims, generate_send_claims,
            InviteJwtClaims.proj, EmergencyAccessInviteJwtClaims.proj,
            OrgApiKeyLoginJwtClaims.proj, FileDownloadClaims.proj,
            RegisterVerifyClaims.proj, BasicJwtClaims.proj]
          omega)
      (by simp only [generate_invite_claims, generate_emergency_access_invite_claims,
            generate_organization_api_key_login_claims, generate_file_download_claims,
            generate_register_verify_claims, generate_delete_claims,
            generate_verify_email_claims, generate_admin_claims, generate_send_claims,
            InviteJwtClaims.proj, EmergencyAccessInviteJwtClaims.proj,
            OrgApiKeyLoginJwtClaims.proj, FileDownloadClaims.proj,
            RegisterVerifyClaims.proj, BasicJwtClaims.proj]
          omega)
      rfl

/-- Witness for C7: a concrete invite claim round-trips through encode and
decode under key pair 1 at time 1000. -/
theorem C7_issue_decode_roundtrip_witness :
    decode_invite "http://localhost" 1 1000 (encode_jwt 1
        (generate_invite_claims "http://localhost" 24 1000 "u1" "a@b.c" "o1" "m1" none)) =
      .ok (generate_invite_claims "http://localhost" 24 1000 "u1" "a@b.c" "o1" "m1" none) :=
  (C7_issue_decode_roundtrip "http://localhost" 1 2 (by decide) 1000 24 20 (by decide)
    (by decide) "u1" "a@b.c" "o1" "m1" "e1" "gn" "ge" "ak" "c1" "f1" "id1" "s1" "sf1"
    none none false).1.1

/-! ## Properties of the rsplit model -/

theorem lastSplit_none_no_split {sep : List Char} (hsep : sep ≠ []) :
    ∀ {s : List Char}, lastSplit sep s = none → ∀ p r : List Char, s ≠ p ++ sep ++ r := by
  intro s
  induction s with
  | nil =>
    intro _ p r heq
    rcases List.append_eq_nil.mp heq.symm with ⟨h1, _⟩
    exact hsep (List.append_eq_nil.mp h1).2
  | cons c cs ih =>
    intro h p r heq
    rw [lastSplit] at h
    cases hcs : lastSplit sep cs with
    | some pr => rw [hcs] at h; exact Option.noConfusion h
    | none =>
      rw [hcs] at h
      cases p with
      | nil =>
        have hpre : sep.isPrefixOf (c :: cs) = true := by
          rw [List.isPrefixOf_iff_prefix]
          exact ⟨r, by rw [heq]; rfl⟩
        rw [if_pos hpre] at h
        exact Option.noConfusion h
      | cons c2 p2 =>
        have hc : c2 = c ∧ p2 ++ sep ++ r = cs := by
          have := heq
          simp only [List.cons_append, List.cons.injEq] at this
          exact ⟨this.1.symm, this.2.symm⟩
        exact ih hcs p2 r hc.2.symm

theorem lastSplit_some_spec {sep : List Char} (hsep : sep ≠ []) :
    ∀ {s p r : List Char}, lastSplit sep s = some (p, r) →
      s = p ++ sep ++ r ∧ ∀ p2 r2 : List Char, s = p2 ++ sep ++ r2 → p2.length ≤ p.length := by
  intro s
  induction s with
  | nil => intro p r h; exact Option.noConfusion h
  | cons c cs ih =>
    intro p r h
    rw [lastSplit] at h
    cases hcs : lastSplit sep cs with
    | some pr =>
      rw [hcs] at h
      obtain ⟨p0, r0⟩ := pr
      obtain ⟨hp, hr⟩ : c :: p0 = p ∧ r0 = r := by
        have := Option.some.inj h
        exact ⟨congrArg Prod.fst this, congrArg Prod.snd this⟩
      obtain ⟨ih1, ih2⟩ := ih hcs
      constructor
      · rw [← hp, ← hr]
        simp only [List.cons_append]
        rw [← ih1]
      · intro p2 r2 heq
        cases p2 with
        | nil => rw [← hp]; exact Nat.zero_le _
        | cons c2 p3 =>
          have hc : p3 ++ sep ++ r2 = cs := by
            simp only [List.cons_append, List.cons.injEq] at heq
            exact heq.2.symm
          have := ih2 p3 r2 hc.symm
          rw [← hp]
          simpa using Nat.succ_le_succ this
    | none =>
      rw [hcs] at h
      by_cases hpre : sep.isPrefixOf (c :: cs) = true
      · rw [if_pos hpre] at h
        obtain ⟨hp, hr⟩ : ([] : List Char) = p ∧ (c :: cs).drop sep.length = r := by
          have := Option.some.inj h
          exact ⟨congrArg Prod.fst this, congrArg Prod.snd this⟩
        obtain ⟨t, ht⟩ := List.isPrefixOf_iff_prefix.mp hpre
        have hdrop : (c :: cs).drop sep.length = t := by
          rw [← ht]; exact List.drop_left sep t
        constructor
        · rw [← hp, ← hr, hdrop, List.nil_append, ← ht]
        · intro p2 r2 heq
          cases p2 with
          | nil => rw [← hp]
          | cons c2 p3 =>
            have hc : p3 ++ sep ++ r2 = cs := by
              simp only [List.cons_append, List.cons.injEq] at heq
              exact heq.2.symm
            exact absurd hc.symm (lastSplit_none_no_split hsep hcs p3 r2)
      · rw [if_neg hpre] at h
        exact Option.noConfusion h

theorem rsplitList_head (sep s : List Char) :
    (rsplitList sep s).head? =
      some (match lastSplit sep s with | none => s | some (_, r) => r) := by
  cases s with
  | nil => rfl
  | cons c cs =>
    show (rsplitListAux sep (cs.length + 1) (c :: cs)).head? = _
    rw [rsplitListAux]
    cases h : lastSplit sep (c :: cs) with
    | none => rfl
    | some pr => obtain ⟨p, r⟩ := pr; rfl

theorem bearerPat_ne_nil : bearerPat ≠ [] := by decide

/-- Claim C10: when an Authorization header is present, the inner
"No access token provided" branch of `Headers::from_request` is unreachable;
the extracted token is the substring after the last occurrence of
`"Bearer "`, and a header value without any `"Bearer "` occurrence is used
whole as the token rather than rejected. -/
theorem C10_bearer_token_extraction (decodeLoginTok : String → Option LoginJwtClaims)
    (db : Db) (now : Int) (req : RequestModel) (hv : String)
    (hauth : req.authHeader = some hv) :
    (headersFromRequest decodeLoginTok db now req).result ≠
        .error "No access token provided" ∧
    ((¬ bearerPat <:+: hv.data) → (rsplitList bearerPat hv.data).head? = some hv.data) ∧
    (∀ p r : List Char, hv.data = p ++ bearerPat ++ r →
       (¬ bearerPat <:+: hv.data.drop (p.length + 1)) →
       (rsplitList bearerPat hv.data).head? = some r) := by
  refine ⟨?_, ?_, ?_⟩
  · obtain ⟨tokc, htokc⟩ : ∃ t, (rsplitList bearerPat hv.data).head? = some t := by
      rw [rsplitList_head]; exact ⟨_, rfl⟩
    simp only [headersFromRequest, hauth, htokc]
    repeat' split
    all_goals first
      | (intro hx; exact absurd (Except.error.inj hx) (by decide))
      | simp
  · intro hni
    rw [rsplitList_head]
    cases h : lastSplit bearerPat hv.data with
    | none => rfl
    | some pr =>
      obtain ⟨p, r⟩ := pr
      exact absurd ⟨p, r, (lastSplit_some_spec bearerPat_ne_nil h).1.symm⟩ hni
  · intro p r heq hni
    rw [rsplitList_head]
    cases h : lastSplit bearerPat hv.data with
    | none => exact absurd heq (lastSplit_none_no_split bearerPat_ne_nil h p r)
    | some pr =>
      obtain ⟨p2, r2⟩ := pr
      obtain ⟨h1, h2⟩ := lastSplit_some_spec bearerPat_ne_nil h
      have hle : p.length ≤ p2.length := h2 p r heq
      have hge : p2.length ≤ p.length := by
        by_contra hgt
        push_neg at hgt
        have hd : hv.data.drop (p.length + 1) = p2.drop (p.length + 1) ++ (bearerPat ++ r2) := by
          rw [h1, List.append_assoc, List.drop_append_of_le_length hgt]
        exact hni (by rw [hd]; exact ⟨p2.drop (p.length + 1), r2, by simp⟩)
      have hlen : p.length = p2.length := Nat.le_antisymm hle hge
      have hpeq : p = p2 ∧ bearerPat ++ r = bearerPat ++ r2 := by
        apply List.append_inj
        · rw [← List.append_assoc, ← List.append_assoc, ← heq, h1]
        · exact hlen
      have : r = r2 := List.append_cancel_left hpeq.2
      simp [this]

/-- Witness for C10: for the header value `"tok Bearer abc"` the extracted
token is `"abc"`, the substring after the last occurrence of `"Bearer "`. -/
theorem C10_bearer_token_extraction_witness :
    (rsplitList bearerPat "tok Bearer abc".data).head? = some "abc".data :=
  (C10_bearer_token_extraction (fun _ => none) ⟨[], [], [], []⟩ 0
    ⟨false, "", none, none, false, none, none, some "tok Bearer abc", none, none, none,
      none, none, "ip"⟩ "tok Bearer abc" rfl).2.2 "tok ".data "abc".data (by decide)
    (by decide)

/-- Claim C3: with a decodable login token, an existing device and user, and
a security-stamp mismatch, `Headers::from_request` produces a `Headers`
context exactly when the user record holds a stamp exception that is not
expired, whose route set contains the current route's name, and whose stored
stamp equals the token's stamp; in every other situation the derivation
fails. -/
theorem C3_stamp_exception_acceptance
    (decodeLoginTok : String → Option LoginJwtClaims) (db : Db) (now : Int)
    (req : RequestModel) (hv : String) (tokc : List Char)
    (claims : LoginJwtClaims) (device : Device) (user : User)
    (hauth : req.authHeader = some hv)
    (htok : (rsplitList bearerPat hv.data).head? = some tokc)
    (hdec : decodeLoginTok (String.mk tokc) = some claims)
    (hdev : Device.find_by_uuid_and_user claims.device claims.sub db = some device)
    (husr : User.find_by_uuid claims.sub db = some user)
    (hmism : user.security_stamp ≠ claims.sstamp) :
    ((headersFromRequest decodeLoginTok db now req).result =
        .ok ⟨hostFrom req, device, user, req.ip⟩ ↔
      ∃ ex route, user.stamp_exception = some ex ∧ req.routeName = some route ∧
        now ≤ ex.expire ∧ ex.routes.contains route = true ∧
        ex.security_stamp = claims.sstamp) ∧
    ((¬ ∃ ex route, user.stamp_exception = some ex ∧ req.routeName = some route ∧
        now ≤ ex.expire ∧ ex.routes.contains route = true ∧
        ex.security_stamp = claims.sstamp) →
      ∃ e, (headersFromRequest decodeLoginTok db now req).result = .error e) := by
  simp only [headersFromRequest, hauth, htok, hdec, hdev, husr]
  rw [if_pos hmism]
  cases hex : user.stamp_exception with
  | none => simp
  | some ex =>
    cases hrt : req.routeName with
    | none => simp
    | some route =>
      simp only []
      split_ifs with h1 h2 h3
      · refine ⟨⟨False.elim, fun hc => ?_⟩, fun _ => ⟨_, rfl⟩⟩
        obtain ⟨ex2, r2, he2, _, hle, _, _⟩ := hc
        cases Option.some.inj he2
        omega
      · refine ⟨⟨False.elim, fun hc => ?_⟩, fun _ => ⟨_, rfl⟩⟩
        obtain ⟨ex2, r2, he2, hr2, _, _, hst⟩ := hc
        cases Option.some.inj he2
        exact h3 hst
      · refine ⟨⟨fun _ => ⟨ex, route, rfl, rfl, by omega, h2, not_not.mp h3⟩, fun _ => rfl⟩,
          fun hn => absurd ⟨ex, route, rfl, rfl, by omega, h2, not_not.mp h3⟩ hn⟩
      · refine ⟨⟨False.elim, fun hc => ?_⟩, fun _ => ⟨_, rfl⟩⟩
        obtain ⟨ex2, r2, he2, hr2, _, hcont, _⟩ := hc
        cases Option.some.inj he2
        cases Option.some.inj hr2
        exact h2 hcont

/-- Witness for C3: a stale login token (user stamp rotated from S_OLD to
S_NEW) is accepted because the user holds an unexpired stamp exception for
the current route carrying the token's stamp. -/
theorem C3_stamp_exception_acceptance_witness :
    (headersFromRequest
        (fun _ => some ⟨0, 100, "i", "u1", false, "n", "e", false, "S_OLD", "d1", [], []⟩)
        ⟨[⟨"d1", "u1"⟩], [⟨"u1", "S_NEW", some ⟨["r1"], "S_OLD", 100⟩⟩], [], []⟩ 50
        ⟨false, "", none, none, false, none, none, some "Bearer t", some "r1", none, none,
          none, none, "ip"⟩).result =
      .ok ⟨hostFrom ⟨false, "", none, none, false, none, none, some "Bearer t", some "r1",
            none, none, none, none, "ip"⟩,
          ⟨"d1", "u1"⟩, ⟨"u1", "S_NEW", some ⟨["r1"], "S_OLD", 100⟩⟩, "ip"⟩ :=
  (C3_stamp_exception_acceptance
    (fun _ => some ⟨0, 100, "i", "u1", false, "n", "e", false, "S_OLD", "d1", [], []⟩)
    ⟨[⟨"d1", "u1"⟩], [⟨"u1", "S_NEW", some ⟨["r1"], "S_OLD", 100⟩⟩], [], []⟩ 50
    ⟨false, "", none, none, false, none, none, some "Bearer t", some "r1", none, none,
      none, none, "ip"⟩ "Bearer t" "t".data
    ⟨0, 100, "i", "u1", false, "n", "e", false, "S_OLD", "d1", [], []⟩ ⟨"d1", "u1"⟩
    ⟨"u1", "S_NEW", some ⟨["r1"], "S_OLD", 100⟩⟩ rfl (by decide) rfl (by decide) (by decide)
    (by decide)).1.mpr
    ⟨⟨["r1"], "S_OLD", 100⟩, "r1", rfl, rfl, by decide, by decide, rfl⟩

/-- Counterexample for C4: at this concrete input the stamp exception is
found invalid (the current route "r1" is not in its route set ["other"]) and
the request is rejected, yet no cleared user row is persisted back to
storage — `savedUsers` is empty — contradicting the claim that an invalid
exception is cleared and persisted just as an expired one is. -/
theorem C4_exception_clearing_counterexample :
    (headersFromRequest
        (fun _ => some ⟨0, 100, "i", "u1", false, "n", "e", false, "S_OLD", "d1", [], []⟩)
        ⟨[⟨"d1", "u1"⟩], [⟨"u1", "S_NEW", some ⟨["other"], "S_OLD", 100⟩⟩], [], []⟩ 50
        ⟨false, "", none, none, false, none, none, some "Bearer t", some "r1", none, none,
          none, none, "ip"⟩).result =
      .error "Invalid security stamp: Current route and exception route do not match" ∧
    (headersFromRequest
        (fun _ => some ⟨0, 100, "i", "u1", false, "n", "e", false, "S_OLD", "d1", [], []⟩)
        ⟨[⟨"d1", "u1"⟩], [⟨"u1", "S_NEW", some ⟨["other"], "S_OLD", 100⟩⟩], [], []⟩ 50
        ⟨false, "", none, none, false, none, none, some "Bearer t", some "r1", none, none,
          none, none, "ip"⟩).savedUsers = [] := by
  constructor <;> rfl

/-- Claim C4 (amended): during the Headers derivation a stamp exception is
cleared from the user record and persisted back to storage exactly when it
has expired; when it is instead found invalid (route not in its route set,
or its stored stamp not matching the token's) the request is rejected but
the exception is left in place and nothing is persisted; in every such case
the request is rejected. -/
theorem C4_exception_clearing
    (decodeLoginTok : String → Option LoginJwtClaims) (db : Db) (now : Int)
    (req : RequestModel) (hv : String) (tokc : List Char)
    (claims : LoginJwtClaims) (device : Device) (user : User)
    (ex : UserStampException) (route : String)
    (hauth : req.authHeader = some hv)
    (htok : (rsplitList bearerPat hv.data).head? = some tokc)
    (hdec : decodeLoginTok (String.mk tokc) = some claims)
    (hdev : Device.find_by_uuid_and_user claims.device claims.sub db = some device)
    (husr : User.find_by_uuid claims.sub db = some user)
    (hmism : user.security_stamp ≠ claims.sstamp)
    (hex : user.stamp_exception = some ex) (hrt : req.routeName = some route) :
    (now > ex.expire →
      (headersFromRequest decodeLoginTok db now req).result =
        .error "Stamp exception is expired" ∧
      (headersFromRequest decodeLoginTok db now req).savedUsers =
        [user.reset_stamp_exception]) ∧
    (¬ now > ex.expire → ex.routes.contains route = false →
      (headersFromRequest decodeLoginTok db now req).result =
        .error "Invalid security stamp: Current route and exception route do not match" ∧
      (headersFromRequest decodeLoginTok db now req).savedUsers = []) ∧
    (¬ now > ex.expire → ex.routes.contains route = true →
        ex.security_stamp ≠ claims.sstamp →
      (headersFromRequest decodeLoginTok db now req).result =
        .error "Invalid security stamp for matched stamp exception" ∧
      (headersFromRequest decodeLoginTok db now req).savedUsers = []) := by
  simp only [headersFromRequest, hauth, htok, hdec, hdev, husr]
  rw [if_pos hmism]
  simp only [hex, hrt]
  refine ⟨?_, ?_, ?_⟩
  · intro h1
    rw [if_pos h1]
    exact ⟨rfl, rfl⟩
  · intro h1 hcont
    rw [if_neg h1, if_pos (show ¬ex.routes.contains route = true by
      intro hc
      rw [hcont] at hc
      exact Bool.noConfusion hc)]
    exact ⟨rfl, rfl⟩
  · intro h1 hcont hst
    rw [if_neg h1, if_neg (not_not_intro hcont), if_pos hst]
    exact ⟨rfl, rfl⟩

/-- Witness for C4 (amended): an expired exception (expiry 10, now 50) is
cleared and the cleared user row is persisted, while the request is
rejected. -/
theorem C4_exception_clearing_witness :
    (headersFromRequest
        (fun _ => some ⟨0, 100, "i", "u1", false, "n", "e", false, "S_OLD", "d1", [], []⟩)
        ⟨[⟨"d1", "u1"⟩], [⟨"u1", "S_NEW", some ⟨["r1"], "S_OLD", 10⟩⟩], [], []⟩ 50
        ⟨false, "", none, none, false, none, none, some "Bearer t", some "r1", none, none,
          none, none, "ip"⟩).result = .error "Stamp exception is expired" ∧
    (headersFromRequest
        (fun _ => some ⟨0, 100, "i", "u1", false, "n", "e", false, "S_OLD", "d1", [], []⟩)
        ⟨[⟨"d1", "u1"⟩], [⟨"u1", "S_NEW", some ⟨["r1"], "S_OLD", 10⟩⟩], [], []⟩ 50
        ⟨false, "", none, none, false, none, none, some "Bearer t", some "r1", none, none,
          none, none, "ip"⟩).savedUsers = [⟨"u1", "S_NEW", none⟩] :=
  (C4_exception_clearing
    (fun _ => some ⟨0, 100, "i", "u1", false, "n", "e", false, "S_OLD", "d1", [], []⟩)
    ⟨[⟨"d1", "u1"⟩], [⟨"u1", "S_NEW", some ⟨["r1"], "S_OLD", 10⟩⟩], [], []⟩ 50
    ⟨false, "", none, none, false, none, none, some "Bearer t", some "r1", none, none,
      none, none, "ip"⟩ "Bearer t" "t".data
    ⟨0, 100, "i", "u1", false, "n", "e", false, "S_OLD", "d1", [], []⟩ ⟨"d1", "u1"⟩
    ⟨"u1", "S_NEW", some ⟨["r1"], "S_OLD", 10⟩⟩ ⟨["r1"], "S_OLD", 10⟩ "r1"
    rfl (by decide) rfl (by decide) (by decide) (by decide) rfl rfl).1 (by decide)

/-- Claim C5: over a successfully derived `OrgHeaders` context, AdminHeaders
is produced exactly when the membership status is Confirmed and the type is
at least Admin; ManagerHeadersLoose exactly when Confirmed and at least
Manager; OwnerHeaders exactly when Confirmed and exactly Owner;
OrgMemberHeaders exactly when the type is at least the ordinary member tier
regardless of status; and the role order Owner > Admin > Manager > User is a
strict total (hence transitive) order compared numerically. -/
theorem C5_role_gates (decodeLoginTok : String → Option LoginJwtClaims)
    (validUuid : String → Bool) (db : Db) (now : Int) (req : RequestModel)
    (o : OrgHeadersCtx)
    (horg : (orgHeadersFromRequest decodeLoginTok validUuid db now req).result = .ok o) :
    ((∃ a, (adminHeadersFromRequest decodeLoginTok validUuid db now req).result = .ok a) ↔
      o.membership_status = .Confirmed ∧ MembershipType.Admin ≤ o.membership_type) ∧
    ((∃ m, (managerHeadersLooseFromRequest decodeLoginTok validUuid db now req).result =
        .ok m) ↔
      o.membership_status = .Confirmed ∧ MembershipType.Manager ≤ o.membership_type) ∧
    ((∃ w, (ownerHeadersFromRequest decodeLoginTok validUuid db now req).result = .ok w) ↔
      o.membership_status = .Confirmed ∧ o.membership_type = .Owner) ∧
    ((∃ m, (orgMemberHeadersFromRequest decodeLoginTok validUuid db now req).result =
        .ok m) ↔
      MembershipType.User ≤ o.membership_type) ∧
    (∀ a b : MembershipType, (a < b ↔ a.toInt < b.toInt) ∧ (a < b ∨ a = b ∨ b < a)) ∧
    (∀ a b c : MembershipType, a < b → b < c → a < c) ∧
    (MembershipType.User < MembershipType.Manager ∧
     MembershipType.Manager < MembershipType.Admin ∧
     MembershipType.Admin < MembershipType.Owner) := by
  refine ⟨?_, ?_, ?_, ?_, ?_, ?_, by decide⟩
  · simp only [adminHeadersFromRequest, horg]
    by_cases hg : o.is_confirmed_and_admin = true
    · rw [if_pos hg]
      simp only [OrgHeadersCtx.is_confirmed_and_admin, decide_eq_true_eq] at hg
      exact ⟨fun _ => hg, fun _ => ⟨_, rfl⟩⟩
    · rw [if_neg hg]
      simp only [OrgHeadersCtx.is_confirmed_and_admin, decide_eq_true_eq] at hg
      exact ⟨fun ⟨a, ha⟩ => absurd ha (by simp), fun hc => absurd hc hg⟩
  · simp only [managerHeadersLooseFromRequest, horg]
    by_cases hg : o.is_confirmed_and_manager = true
    · rw [if_pos hg]
      simp only [OrgHeadersCtx.is_confirmed_and_manager, decide_eq_true_eq] at hg
      exact ⟨fun _ => hg, fun _ => ⟨_, rfl⟩⟩
    · rw [if_neg hg]
      simp only [OrgHeadersCtx.is_confirmed_and_manager, decide_eq_true_eq] at hg
      exact ⟨fun ⟨m, hm⟩ => absurd hm (by simp), fun hc => absurd hc hg⟩
  · simp only [ownerHeadersFromRequest, horg]
    by_cases hg : o.is_confirmed_and_owner = true
    · rw [if_pos hg]
      simp only [OrgHeadersCtx.is_confirmed_and_owner, decide_eq_true_eq] at hg
      exact ⟨fun _ => hg, fun _ => ⟨_, rfl⟩⟩
    · rw [if_neg hg]
      simp only [OrgHeadersCtx.is_confirmed_and_owner, decide_eq_true_eq] at hg
      exact ⟨fun ⟨w, hw⟩ => absurd hw (by simp), fun hc => absurd hc hg⟩
  · simp only [orgMemberHeadersFromRequest, horg]
    by_cases hg : o.is_member = true
    · rw [if_pos hg]
      simp only [OrgHeadersCtx.is_member, decide_eq_true_eq] at hg
      exact ⟨fun _ => hg, fun _ => ⟨_, rfl⟩⟩
    · rw [if_neg hg]
      simp only [OrgHeadersCtx.is_member, decide_eq_true_eq] at hg
      exact ⟨fun ⟨m, hm⟩ => absurd hm (by simp), fun hc => absurd hc hg⟩
  · intro a b
    exact ⟨Iff.rfl, by cases a <;> cases b <;> decide⟩
  · intro a b c
    cases a <;> cases b <;> cases c <;> decide

/-- Witness for C5: a confirmed Admin member (stored type 3, status 2) of
org1 passes the AdminHeaders gate. -/
theorem C5_role_gates_witness :
    MembershipStatus.Confirmed = MembershipStatus.Confirmed ∧
      MembershipType.Admin ≤ MembershipType.Admin :=
  (C5_role_gates
    (fun _ => some ⟨0, 100, "i", "u1", false, "n", "e", false, "S", "d1", [], []⟩)
    (fun _ => true)
    ⟨[⟨"d1", "u1"⟩], [⟨"u1", "S", none⟩], [⟨"u1", "org1", 3, 2⟩], []⟩ 0
    ⟨false, "", none, none, false, none, none, some "Bearer t", none, some "org1", none,
      none, none, "ip"⟩
    ⟨"http://", ⟨"d1", "u1"⟩, ⟨"u1", "S", none⟩, .Admin, .Confirmed,
      ⟨"u1", "org1", 3, 2⟩, "ip"⟩ rfl).1.mp
    ⟨⟨"http://", ⟨"d1", "u1"⟩, ⟨"u1", "S", none⟩, .Admin, "ip", "org1"⟩, rfl⟩

/-- Claim C6: each authorization tier is a pure refinement of the tier below
it: a failure of `Headers` is reported unchanged by `OrgHeaders`, a failure
of `OrgHeaders` is reported unchanged by each of the five tiers above it,
and a success at any higher tier implies the lower tiers succeeded on the
same request. -/
theorem C6_tier_refinement (decodeLoginTok : String → Option LoginJwtClaims)
    (validUuid : String → Bool) (db : Db) (now : Int) (req : RequestModel) :
    (∀ e, (headersFromRequest decodeLoginTok db now req).result = .error e →
      (orgHeadersFromRequest decodeLoginTok validUuid db now req).result = .error e) ∧
    (∀ e, (orgHeadersFromRequest decodeLoginTok validUuid db now req).result = .error e →
      (adminHeadersFromRequest decodeLoginTok validUuid db now req).result = .error e ∧
      (managerHeadersFromRequest decodeLoginTok validUuid db now req).result = .error e ∧
      (managerHeadersLooseFromRequest decodeLoginTok validUuid db now req).result =
        .error e ∧
      (ownerHeadersFromRequest decodeLoginTok validUuid db now req).result = .error e ∧
      (orgMemberHeadersFromRequest decodeLoginTok validUuid db now req).result =
        .error e) ∧
    ((∃ o, (orgHeadersFromRequest decodeLoginTok validUuid db now req).result = .ok o) →
      ∃ h, (headersFromRequest decodeLoginTok db now req).result = .ok h) ∧
    ((∃ a, (adminHeadersFromRequest decodeLoginTok validUuid db now req).result = .ok a) →
      ∃ o, (orgHeadersFromRequest decodeLoginTok validUuid db now req).result = .ok o) ∧
    ((∃ m, (managerHeadersFromRequest decodeLoginTok validUuid db now req).result =
        .ok m) →
      ∃ o, (orgHeadersFromRequest decodeLoginTok validUuid db now req).result = .ok o) ∧
    ((∃ m, (managerHeadersLooseFromRequest decodeLoginTok validUuid db now req).result =
        .ok m) →
      ∃ o, (orgHeadersFromRequest decodeLoginTok validUuid db now req).result = .ok o) ∧
    ((∃ w, (ownerHeadersFromRequest decodeLoginTok validUuid db now req).result = .ok w) →
      ∃ o, (orgHeadersFromRequest decodeLoginTok validUuid db now req).result = .ok o) ∧
    ((∃ m, (orgMemberHeadersFromRequest decodeLoginTok validUuid db now req).result =
        .ok m) →
      ∃ o, (orgHeadersFromRequest decodeLoginTok validUuid db now req).result = .ok o) := by
  refine ⟨?_, ?_, ?_, ?_, ?_, ?_, ?_, ?_⟩
  · intro e he
    simp only [orgHeadersFromRequest, he]
  · intro e he
    refine ⟨?_, ?_, ?_, ?_, ?_⟩ <;> simp only [adminHeadersFromRequest,
      managerHeadersFromRequest, managerHeadersLooseFromRequest, ownerHeadersFromRequest,
      orgMemberHeadersFromRequest, he]
  · rintro ⟨o, ho⟩
    cases hh : (headersFromRequest decodeLoginTok db now req).result with
    | error e =>
      rw [show (orgHeadersFromRequest decodeLoginTok validUuid db now req).result =
          .error e by simp only [orgHeadersFromRequest, hh]] at ho
      exact Except.noConfusion ho
    | ok h => exact ⟨h, rfl⟩
  · rintro ⟨a, ha⟩
    cases ho : (orgHeadersFromRequest decodeLoginTok validUuid db now req).result with
    | error e =>
      rw [show (adminHeadersFromRequest decodeLoginTok validUuid db now req).result =
          .error e by simp only [adminHeadersFromRequest, ho]] at ha
      exact Except.noConfusion ha
    | ok o => exact ⟨o, rfl⟩
  · rintro ⟨m, hm⟩
    cases ho : (orgHeadersFromRequest decodeLoginTok validUuid db now req).result with
    | error e =>
      rw [show (managerHeadersFromRequest decodeLoginTok validUuid db now req).result =
          .error e by simp only [managerHeadersFromRequest, ho]] at hm
      exact Except.noConfusion hm
    | ok o => exact ⟨o, rfl⟩
  · rintro ⟨m, hm⟩
    cases ho : (orgHeadersFromRequest decodeLoginTok validUuid db now req).result with
    | error e =>
      rw [show (managerHeadersLooseFromRequest decodeLoginTok validUuid db now
          req).result = .error e by simp only [managerHeadersLooseFromRequest, ho]] at hm
      exact Except.noConfusion hm
    | ok o => exact ⟨o, rfl⟩
  · rintro ⟨w, hw⟩
    cases ho : (orgHeadersFromRequest decodeLoginTok validUuid db now req).result with
    | error e =>
      rw [show (ownerHeadersFromRequest decodeLoginTok validUuid db now req).result =
          .error e by simp only [ownerHeadersFromRequest, ho]] at hw
      exact Except.noConfusion hw
    | ok o => exact ⟨o, rfl⟩
  · rintro ⟨m, hm⟩
    cases ho : (orgHeadersFromRequest decodeLoginTok validUuid db now req).result with
    | error e =>
      rw [show (orgMemberHeadersFromRequest decodeLoginTok validUuid db now req).result =
          .error e by simp only [orgMemberHeadersFromRequest, ho]] at hm
      exact Except.noConfusion hm
    | ok o => exact ⟨o, rfl⟩

/-- Witness for C6: a request with no Authorization header fails `Headers`
with "No access token provided" and `OrgHeaders` reports that same error. -/
theorem C6_tier_refinement_witness :
    (orgHeadersFromRequest (fun _ => none) (fun _ => true) ⟨[], [], [], []⟩ 0
      ⟨false, "", none, none, false, none, none, none, none, none, none, none, none,
        "ip"⟩).result = .error "No access token provided" :=
  (C6_tier_refinement (fun _ => none) (fun _ => true) ⟨[], [], [], []⟩ 0
    ⟨false, "", none, none, false, none, none, none, none, none, none, none, none,
      "ip"⟩).1 "No access token provided" rfl

/-! ## Rate limiter properties -/

theorem rlUpdate_lookup_self (l : List (String × RlBucket)) (k : String) (v : RlBucket) :
    (rlUpdate l k v).lookup k = some v := by
  induction l with
  | nil => simp [rlUpdate, List.lookup]
  | cons kv rest ih =>
    obtain ⟨k2, v2⟩ := kv
    by_cases h : k2 = k
    · simp [rlUpdate, h, List.lookup]
    · simp only [rlUpdate, if_neg h, List.lookup]
      rw [show (k == k2) = false from beq_eq_false_iff_ne.mpr (Ne.symm h)]
      exact ih

theorem rlUpdate_lookup_other (l : List (String × RlBucket)) (k k2 : String) (v : RlBucket)
    (h : k2 ≠ k) : (rlUpdate l k v).lookup k2 = l.lookup k2 := by
  induction l with
  | nil =>
    simp only [rlUpdate, List.lookup]
    rw [show (k2 == k) = false from beq_eq_false_iff_ne.mpr h]
  | cons kv rest ih =>
    obtain ⟨k3, v3⟩ := kv
    by_cases h3 : k3 = k
    · subst h3
      simp only [rlUpdate, if_pos rfl, List.lookup]
      rw [show (k2 == k3) = false from beq_eq_false_iff_ne.mpr h]
    · simp only [rlUpdate, if_neg h3, List.lookup]
      cases hbe : k2 == k3 with
      | true => rfl
      | false => exact ih

theorem rlCheck_lookup_other (q : RlQuota) (st : RlState) (ip : String) (t : Int)
    (ip2 : String) (h : ip2 ≠ ip) :
    ((rlCheck q st ip t).2).buckets.lookup ip2 = st.buckets.lookup ip2 := by
  simp only [rlCheck]
  exact rlUpdate_lookup_other _ _ _ _ h

theorem rlRun_lookup_other (q : RlQuota) (st : RlState) (ip : String) (t : Int)
    (ip2 : String) (h : ip2 ≠ ip) :
    ∀ j, (rlRun q st ip t j).buckets.lookup ip2 = st.buckets.lookup ip2 := by
  intro j
  induction j with
  | zero => rfl
  | succ n ih => rw [rlRun, rlCheck_lookup_other q _ ip t ip2 h, ih]

theorem rlCheck_at_same_time (q : RlQuota) (st : RlState) (ip : String) (t0 : Int)
    (hp : 0 < q.period) (m : Nat) (hm : m ≤ q.burst)
    (hb : (st.buckets.lookup ip).getD ⟨q.burst, t0⟩ = ⟨m, t0⟩) :
    (rlCheck q st ip t0).1 = decide (0 < m) ∧
    ((rlCheck q st ip t0).2).buckets.lookup ip =
      some ⟨m - (if 0 < m then 1 else 0), t0⟩ := by
  simp only [rlCheck, hb]
  have hrefill : (if 0 < q.period then
      ((t0 - (⟨m, t0⟩ : RlBucket).lastRefill) / q.period).toNat else 0) = 0 := by
    rw [if_pos hp]
    simp
  simp only [hrefill]
  have htok : min q.burst ((⟨m, t0⟩ : RlBucket).tokens + 0) = m := by
    show min q.burst (m + 0) = m
    omega
  simp only [htok]
  refine ⟨by simp, ?_⟩
  rw [rlUpdate_lookup_self]
  by_cases h0 : 0 < m
  · simp [h0]
  · simp [h0]

theorem rlRun_lookup (q : RlQuota) (st : RlState) (ip : String) (t0 : Int)
    (hp : 0 < q.period) (hfresh : st.buckets.lookup ip = none) :
    ∀ j, j ≤ q.burst →
      ((rlRun q st ip t0 j).buckets.lookup ip).getD ⟨q.burst, t0⟩ =
        ⟨q.burst - j, t0⟩ := by
  intro j
  induction j with
  | zero =>
    intro _
    simp [rlRun, hfresh]
  | succ n ih =>
    intro hle
    have hn := ih (Nat.le_of_succ_le hle)
    have hstep := rlCheck_at_same_time q (rlRun q st ip t0 n) ip t0 hp (q.burst - n)
      (Nat.sub_le _ _) hn
    show (((rlCheck q (rlRun q st ip t0 n) ip t0).2).buckets.lookup ip).getD
        ⟨q.burst, t0⟩ = ⟨q.burst - (n + 1), t0⟩
    rw [hstep.2]
    have h0 : 0 < q.burst - n := by omega
    rw [if_pos h0]
    simp only [Option.getD_some]
    have hsub : q.burst - n - 1 = q.burst - (n + 1) := by omega
    rw [hsub]

theorem rlCheck_after_refill (q : RlQuota) (st : RlState) (ip : String) (t0 : Int)
    (hp : 0 < q.period) (hb : 0 < q.burst)
    (hlook : st.buckets.lookup ip = some ⟨0, t0⟩) :
    (rlCheck q st ip (t0 + q.period)).1 = true := by
  simp only [rlCheck, hlook, Option.getD_some]
  have hrefill : (if 0 < q.period then
      ((t0 + q.period - (⟨0, t0⟩ : RlBucket).lastRefill) / q.period).toNat else 0) = 1 := by
    rw [if_pos hp]
    show ((t0 + q.period - t0) / q.period).toNat = 1
    rw [show t0 + q.period - t0 = q.period by omega, Int.ediv_self (by omega)]
    rfl
  simp only [hrefill]
  have htok : min q.burst ((⟨0, t0⟩ : RlBucket).tokens + 1) = 1 := by
    show min q.burst (0 + 1) = 1
    omega
  simp only [htok]
  rfl

/-- Claim C8: for a limiter with burst size N and refill period T and a fresh
key, exactly N checks at one instant succeed and the (N+1)-th fails; the
failed wrapper call returns an error carrying HTTP status 429 (the login and
admin wrappers each with their own message), mutates no other key's bucket,
and one refill period later a further check for the same key succeeds. -/
theorem C8_rate_limiter (q : RlQuota) (st : RlState) (ip : String) (t0 : Int)
    (hp : 0 < q.period) (hb : 0 < q.burst)
    (hfresh : st.buckets.lookup ip = none) :
    (∀ j, j < q.burst → (rlCheck q (rlRun q st ip t0 j) ip t0).1 = true) ∧
    (rlCheck q (rlRun q st ip t0 q.burst) ip t0).1 = false ∧
    (check_limit_login q (rlRun q st ip t0 q.burst) ip t0).1 =
      .error ⟨"Too many login requests", 429⟩ ∧
    (check_limit_admin q (rlRun q st ip t0 q.burst) ip t0).1 =
      .error ⟨"Too many admin requests", 429⟩ ∧
    (∀ ip2, ip2 ≠ ip →
      ((check_limit_login q (rlRun q st ip t0 q.burst) ip t0).2).buckets.lookup ip2 =
        st.buckets.lookup ip2) ∧
    (rlCheck q ((rlCheck q (rlRun q st ip t0 q.burst) ip t0).2) ip
      (t0 + q.period)).1 = true := by
  have hfail : (rlCheck q (rlRun q st ip t0 q.burst) ip t0).1 = false := by
    rw [(rlCheck_at_same_time q (rlRun q st ip t0 q.burst) ip t0 hp
      (q.burst - q.burst) (Nat.sub_le _ _)
      (rlRun_lookup q st ip t0 hp hfresh q.burst (Nat.le_refl _))).1]
    simp
  have hfaillook : ((rlCheck q (rlRun q st ip t0 q.burst) ip t0).2).buckets.lookup ip =
      some ⟨0, t0⟩ := by
    rw [(rlCheck_at_same_time q (rlRun q st ip t0 q.burst) ip t0 hp
      (q.burst - q.burst) (Nat.sub_le _ _)
      (rlRun_lookup q st ip t0 hp hfresh q.burst (Nat.le_refl _))).2]
    simp
  refine ⟨?_, hfail, ?_, ?_, ?_, ?_⟩
  · intro j hj
    rw [(rlCheck_at_same_time q (rlRun q st ip t0 j) ip t0 hp (q.burst - j)
      (Nat.sub_le _ _) (rlRun_lookup q st ip t0 hp hfresh j (Nat.le_of_lt hj))).1]
    simp only [decide_eq_true_eq]
    omega
  · simp only [check_limit_login]
    rw [show rlCheck q (rlRun q st ip t0 q.burst) ip t0 =
        (false, (rlCheck q (rlRun q st ip t0 q.burst) ip t0).2) from
      Prod.ext hfail rfl]
  · simp only [check_limit_admin]
    rw [show rlCheck q (rlRun q st ip t0 q.burst) ip t0 =
        (false, (rlCheck q (rlRun q st ip t0 q.burst) ip t0).2) from
      Prod.ext hfail rfl]
  · intro ip2 h2
    simp only [check_limit_login]
    rw [show rlCheck q (rlRun q st ip t0 q.burst) ip t0 =
        (false, (rlCheck q (rlRun q st ip t0 q.burst) ip t0).2) from
      Prod.ext hfail rfl]
    rw [rlCheck_lookup_other q _ ip t0 ip2 h2, rlRun_lookup_other q st ip t0 ip2 h2]
  · exact rlCheck_after_refill q _ ip t0 hp hb hfaillook

/-- Witness for C8: with burst 3 and period 60 starting from an empty store,
the fourth check at one instant is throttled with a 429 error and a check
one period later succeeds. -/
theorem C8_rate_limiter_witness :
    (check_limit_login ⟨60, 3⟩ (rlRun ⟨60, 3⟩ ⟨[]⟩ "1.2.3.4" 0 3) "1.2.3.4" 0).1 =
      .error ⟨"Too many login requests", 429⟩ :=
  (C8_rate_limiter ⟨60, 3⟩ ⟨[]⟩ "1.2.3.4" 0 (by decide) (by decide) rfl).2.2.1

/-! ## Key manager properties -/

theorem string_ne_empty_length_pos {c : String} (hne : c ≠ "") : 0 < c.length := by
  cases c with
  | mk data =>
    cases data with
    | nil => exact absurd rfl hne
    | cons a as => simp [String.length]

theorem initialize_keys_privSet_err (o : KeyOracle) (st : KmState)
    (h2 : st.privKey.isSome = true) : ∃ e, (initialize_keys o st).1 = .error e := by
  simp only [initialize_keys]
  split
  · exact ⟨_, rfl⟩
  · rw [if_pos h2]
    exact ⟨_, rfl⟩

/-- Claim C9: `initialize_keys` fails without overwriting whenever the key
file exists with nonempty content that cannot be parsed; it generates and
persists a fresh key pair exactly when the file is absent or empty (a
parseable file is loaded and left unchanged); a call with the private-key
singleton already set fails, hence any second call after a successful one
fails; and a successful call sets both the signing and the verification
capability, while an already-set private key is never overwritten. -/
theorem C9_initialize_keys (o : KeyOracle) (st : KmState) :
    (∀ c, st.keyFile = some c → c ≠ "" → o.parsePem c = none →
      (∃ e, (initialize_keys o st).1 = .error e) ∧
      (initialize_keys o st).2.keyFile = some c) ∧
    ((st.keyFile = none ∨ st.keyFile = some "") → st.privKey = none → st.pubKey = none →
      (initialize_keys o st).1 = .ok () ∧
      (initialize_keys o st).2 = ⟨some o.pemOfFresh, some o.freshKey, some o.freshKey⟩) ∧
    (∀ c k, st.keyFile = some c → c ≠ "" → o.parsePem c = some k → st.privKey = none →
      st.pubKey = none →
      (initialize_keys o st).1 = .ok () ∧
      (initialize_keys o st).2 = ⟨some c, some k, some k⟩) ∧
    (st.privKey.isSome = true → ∃ e, (initialize_keys o st).1 = .error e) ∧
    ((initialize_keys o st).1 = .ok () →
      ∃ e, (initialize_keys o ((initialize_keys o st).2)).1 = .error e) ∧
    ((initialize_keys o st).1 = .ok () →
      (initialize_keys o st).2.privKey.isSome = true ∧
      (initialize_keys o st).2.pubKey.isSome = true) ∧
    (∀ k, st.privKey = some k → (initialize_keys o st).2.privKey = some k) := by
  have hsets : (initialize_keys o st).1 = .ok () →
      (initialize_keys o st).2.privKey.isSome = true ∧
      (initialize_keys o st).2.pubKey.isSome = true := by
    simp only [initialize_keys]
    split
    · intro h
      exact Except.noConfusion h
    · by_cases hp : st.privKey.isSome = true
      · rw [if_pos hp]
        intro h
        exact Except.noConfusion h
      · rw [if_neg hp]
        by_cases hq : st.pubKey.isSome = true
        · rw [if_pos hq]
          intro h
          exact Except.noConfusion h
        · rw [if_neg hq]
          intro _
          exact ⟨rfl, rfl⟩
  refine ⟨?_, ?_, ?_, initialize_keys_privSet_err o st, ?_, hsets, ?_⟩
  · intro c hc hne hparse
    have hlen : 0 < c.length := string_ne_empty_length_pos hne
    simp [initialize_keys, read_key, hc, hparse, hlen]
  · intro hfile hpriv hpub
    have hl0 : ¬ 0 < ("" : String).length := by decide
    rcases hfile with hf | hf
    · simp [initialize_keys, read_key, hf, hpriv, hpub]
    · simp [initialize_keys, read_key, hf, hpriv, hpub, hl0]
  · intro c k hc hne hparse hpriv hpub
    have hlen : 0 < c.length := string_ne_empty_length_pos hne
    simp [initialize_keys, read_key, hc, hparse, hlen, hpriv, hpub]
  · intro hs
    exact initialize_keys_privSet_err o _ (hsets hs).1
  · intro k hk
    simp only [initialize_keys]
    split
    · simp [hk]
    · rw [if_pos (by rw [hk]; rfl)]
      simp [hk]

/-- Witness for C9: on a fresh state with an absent key file, initialization
succeeds, persists the generated PEM and sets both singletons; a second call
on the resulting state fails. -/
theorem C9_initialize_keys_witness :
    ((initialize_keys ⟨fun s => if s = "PEM" then some 7 else none, 7, "PEM"⟩
        ⟨none, none, none⟩).1 = .ok () ∧
      (initialize_keys ⟨fun s => if s = "PEM" then some 7 else none, 7, "PEM"⟩
        ⟨none, none, none⟩).2 = ⟨some "PEM", some 7, some 7⟩) ∧
    (∃ e, (initialize_keys ⟨fun s => if s = "PEM" then some 7 else none, 7, "PEM"⟩
        ((initialize_keys ⟨fun s => if s = "PEM" then some 7 else none, 7, "PEM"⟩
          ⟨none, none, none⟩).2)).1 = .error e) :=
  ⟨(C9_initialize_keys ⟨fun s => if s = "PEM" then some 7 else none, 7, "PEM"⟩
      ⟨none, none, none⟩).2.1 (Or.inl rfl) rfl rfl,
   (C9_initialize_keys ⟨fun s => if s = "PEM" then some 7 else none, 7, "PEM"⟩
      ⟨none, none, none⟩).2.2.2.2.1 (by rfl)⟩
